import Mathlib

/-!
Verification development for `goes16ci/models.py`: convolutional network
builders (`StandardConvNet`, `ResNet`), the training drivers
(`train_conv_net_cpu`, `train_conv_net_gpu`) and the `MinMaxScaler2D`
normalization utility, shallowly embedded in Lean 4.

Conventions of the embedding:
* Python floats are modelled as exact rationals (`ℚ`); floating-point
  rounding of `np.log2` is idealized to the exact real logarithm.
* `int(q)` on a Python float truncates toward zero; this is `pytrunc`.
* Keras layer graphs are modelled as the list of layers in construction
  order, together with symbolic shape propagation (shapes exclude the
  batch dimension, as a 3-component record `Shape3`).
* Keras's `Add` broadcasts dimensions of size 1 and raises on any other
  shape mismatch; a builder that would raise is modelled as returning
  `none`.
-/

/-- Truncation toward zero, the semantics of Python's `int()` on a float. -/
def pytrunc (q : ℚ) : ℤ :=
  if q < 0 then -(⌊-q⌋) else ⌊q⌋

/-- Zero-padding to two digits, the semantics of `"{0:02d}".format(n)`
(written without literal braces in this comment's source string). -/
def pad2 (n : ℕ) : String :=
  if n < 10 then "0" ++ toString n else toString n

/-- The hyperparameters of `StandardConvNet.__init__` (shared by `ResNet`),
with the constructor's default values. -/
structure Hyper where
  min_filters : ℕ := 16
  filter_growth_rate : ℚ := 2
  filter_width : ℕ := 5
  min_data_width : ℕ := 4
  hidden_activation : String := "relu"
  output_activation : String := "sigmoid"
  pooling : String := "mean"
  use_dropout : Bool := false
  dropout_alpha : ℚ := 0
  data_format : String := "channels_first"
  optimizer : String := "adam"
  loss : String := "mse"
  leaky_alpha : ℚ := 1/10
  learning_rate : ℚ := 1/100000
  batch_size : ℕ := 256
  epochs : ℕ := 10
  verbose : ℕ := 0
deriving DecidableEq

/-- A tensor shape without the batch dimension: `(d0, d1, d2)`.
Under `channels_first` this reads `(channels, height, width)`; under
`channels_last` it reads `(height, width, channels)`. -/
structure Shape3 where
  d0 : ℕ
  d1 : ℕ
  d2 : ℕ
deriving DecidableEq

/-- The channel count of a shape under the given data format. -/
def channelsOf (data_format : String) (s : Shape3) : ℕ :=
  if data_format = "channels_first" then s.d0 else s.d2

/-- Output shape of a same-padded `Conv2D(filters, ...)`: the channel axis
becomes `filters`, spatial dimensions are preserved. -/
def convShape (data_format : String) (filters : ℕ) (s : Shape3) : Shape3 :=
  if data_format = "channels_first" then ⟨filters, s.d1, s.d2⟩ else ⟨s.d0, s.d1, filters⟩

/-- Output shape of `MaxPool2D`/`AveragePooling2D` with the default 2×2
window and stride: both spatial dimensions are halved (floor). -/
def poolShape (data_format : String) (s : Shape3) : Shape3 :=
  if data_format = "channels_first" then ⟨s.d0, s.d1 / 2, s.d2 / 2⟩ else ⟨s.d0 / 2, s.d1 / 2, s.d2⟩

/-- One Keras layer, as recorded in construction order. -/
inductive LayerOp where
  | inputL (shape : Shape3)
  | conv2d (filters : ℕ) (kernel : ℕ) (layerName : String)
  | hiddenAct (kind : String) (layerName : String)
  | leakyRelu (alpha : ℚ) (layerName : String)
  | maxpool (layerName : String)
  | avgpool (layerName : String)
  | batchnorm (axis : ℤ) (layerName : String)
  | addL
  | flattenL
  | dropoutL (rate : ℚ)
  | dense (units : ℕ)
deriving DecidableEq

/-- `num_conv_layers = int(np.log2(input_shape[1]) - np.log2(self.min_data_width))`.
For `w ≥ m` the exact value `log2 w - log2 m` is nonnegative, so `int()`
truncation equals the floor, and `⌊logb 2 w - logb 2 m⌋ = ⌊logb 2 (w/m)⌋ =
Int.log 2 (w/m)`; for `w < m` both truncation and floor are nonpositive and
the loop `range(num_conv_layers)` below runs zero times either way. -/
def num_conv_layers (w m : ℕ) : ℤ :=
  Int.log 2 ((w : ℚ) / (m : ℚ))

/-- The hidden-activation layer of a stage:
`LeakyReLU(leaky_alpha)` when `hidden_activation == "leaky"`, else
`Activation(hidden_activation)`. -/
def hiddenActivationLayer (hp : Hyper) (layerName : String) : LayerOp :=
  if hp.hidden_activation = "leaky" then LayerOp.leakyRelu hp.leaky_alpha layerName
  else LayerOp.hiddenAct hp.hidden_activation layerName

/-- The pooling layer of a stage: `MaxPool2D` if `pooling.lower() == "max"`
else `AveragePooling2D`. -/
def poolingLayer (hp : Hyper) (layerName : String) : LayerOp :=
  if hp.pooling.toLower = "max" then LayerOp.maxpool layerName else LayerOp.avgpool layerName

/-- `num_filters = int(num_filters * self.filter_growth_rate)`, the update
performed after each stage. -/
def nextFilters (hp : Hyper) (num_filters : ℕ) : ℕ :=
  (pytrunc ((num_filters : ℚ) * hp.filter_growth_rate)).toNat

/-- The loop `for c in range(num_conv_layers)` of
`StandardConvNet.build_network`: convolution, hidden activation, filter
growth, pooling; threads the current shape and filter count. The argument
`n` is the number of remaining iterations and `c` the current loop index. -/
def scnStages (hp : Hyper) : ℕ → Shape3 → ℕ → ℕ → List LayerOp × Shape3
  | 0, shape, _, _ => ([], shape)
  | n + 1, shape, num_filters, c =>
    let s1 := convShape hp.data_format num_filters shape
    let s2 := poolShape hp.data_format s1
    let r := scnStages hp n s2 (nextFilters hp num_filters) (c + 1)
    (LayerOp.conv2d num_filters hp.filter_width ("conv_" ++ pad2 c) ::
       hiddenActivationLayer hp ("hidden_activation_" ++ pad2 c) ::
       poolingLayer hp ("pooling_" ++ pad2 c) :: r.1,
     r.2)

/-- `StandardConvNet.build_network(input_shape, output_size)`: the layer
graph, in construction order. -/
def StandardConvNet.build_network (hp : Hyper) (input_shape : Shape3) (output_size : ℕ) :
    List LayerOp :=
  let n := (num_conv_layers input_shape.d1 hp.min_data_width).toNat
  LayerOp.inputL input_shape :: (scnStages hp n input_shape hp.min_filters 0).1 ++
    [LayerOp.flattenL] ++
    (if hp.use_dropout then [LayerOp.dropoutL hp.dropout_alpha] else []) ++
    [LayerOp.dense output_size, LayerOp.hiddenAct hp.output_activation "activation_output"]

/-- The number of pooling layers in a graph; each stage of either builder
contributes exactly one pooling layer, so this counts the stages. -/
def countPool : List LayerOp → ℕ
  | [] => 0
  | LayerOp.maxpool _ :: rest => countPool rest + 1
  | LayerOp.avgpool _ :: rest => countPool rest + 1
  | _ :: rest => countPool rest

/-- The unit counts of the `Dense` layers of a graph, in order. -/
def denseUnitsOf : List LayerOp → List ℕ
  | [] => []
  | LayerOp.dense u :: rest => u :: denseUnitsOf rest
  | _ :: rest => denseUnitsOf rest

/-- The filter counts of the `Conv2D` layers of a graph, in order. -/
def convFiltersOf : List LayerOp → List ℕ
  | [] => []
  | LayerOp.conv2d f _ _ :: rest => f :: convFiltersOf rest
  | _ :: rest => convFiltersOf rest

/-- The filter-count sequence as the code computes it:
`filterSeq f0 g 0 = f0` and
`filterSeq f0 g (i+1) = int(filterSeq f0 g i * g)`. -/
def filterSeq (f0 : ℕ) (g : ℚ) : ℕ → ℕ
  | 0 => f0
  | i + 1 => (pytrunc ((filterSeq f0 g i : ℚ) * g)).toNat

/-- Elementwise broadcasting of one dimension, as in Keras's merge-layer
shape computation: equal dimensions pass through, a dimension of 1
broadcasts against the other, anything else raises. -/
def broadcastDim (i j : ℕ) : Option ℕ :=
  if i = j then some i else if i = 1 then some j else if j = 1 then some i else none

/-- Output shape of `Add()([a, b])`: Keras's `_Merge` computes the
elementwise-op output shape dimension by dimension, broadcasting
dimensions of size 1 and raising a `ValueError` otherwise. -/
def addShape (a b : Shape3) : Option Shape3 :=
  match broadcastDim a.d0 b.d0, broadcastDim a.d1 b.d1, broadcastDim a.d2 b.d2 with
  | some x0, some x1, some x2 => some ⟨x0, x1, x2⟩
  | _, _, _ => none

/-- The result of building one residual block: the layers created, whether
the shortcut path was a projection convolution, and the output shape
(`none` when `Add` would raise because the operand shapes are not
broadcast-compatible). -/
structure ResBlockResult where
  layers : List LayerOp
  projected : Bool
  out : Option Shape3
deriving DecidableEq

/-- `ResNet.residual_block(filters, in_layer, layer_number)`.
The source tests `in_layer.shape[-1].value != filters`: the size of the
LAST axis (`d2`), which is the channel count only under `channels_last`
(under `channels_first` it is the spatial width).  The main path applies
`BatchNormalization → activation → Conv2D(filters) → BatchNormalization →
activation → Conv2D(filters)` to the (possibly projected) input `x`, and
`Add()([y, x])` combines the two paths, raising unless the shapes agree. -/
def ResNet.residual_block (hp : Hyper) (filters : ℕ) (inShape : Shape3) (layer_number : ℕ) :
    ResBlockResult :=
  let norm_axis : ℤ := if hp.data_format = "channels_first" then 1 else -1
  let projected := inShape.d2 ≠ filters
  let x := if projected then convShape hp.data_format filters inShape else inShape
  let projLayers := if projected then [LayerOp.conv2d filters hp.filter_width ""] else []
  let y1 := convShape hp.data_format filters x
  let y2 := convShape hp.data_format filters y1
  { out := addShape y2 x,
    layers := projLayers ++
      [LayerOp.batchnorm norm_axis ("bn_res_" ++ pad2 layer_number ++ "_a"),
       hiddenActivationLayer hp ("res_activation_" ++ pad2 layer_number ++ "_a"),
       LayerOp.conv2d filters hp.filter_width ("res_conv_" ++ pad2 layer_number ++ "_a"),
       LayerOp.batchnorm norm_axis ("bn_res_" ++ pad2 layer_number ++ "_b"),
       hiddenActivationLayer hp ("res_activation_" ++ pad2 layer_number ++ "_b"),
       LayerOp.conv2d filters hp.filter_width ("res_conv_" ++ pad2 layer_number ++ "_b"),
       LayerOp.addL],
    projected := projected }

/-- The loop `for c in range(num_conv_layers)` of `ResNet.build_network`:
residual block, filter growth, pooling; `none` as soon as a block fails. -/
def resStages (hp : Hyper) : ℕ → Shape3 → ℕ → ℕ → Option (List LayerOp × Shape3)
  | 0, shape, _, _ => some ([], shape)
  | n + 1, shape, num_filters, c =>
    let rb := ResNet.residual_block hp num_filters shape c
    match rb.out with
    | none => none
    | some s1 =>
      let s2 := poolShape hp.data_format s1
      match resStages hp n s2 (nextFilters hp num_filters) (c + 1) with
      | none => none
      | some (rest, sfin) =>
        some (rb.layers ++ poolingLayer hp ("pooling_" ++ pad2 c) :: rest, sfin)

/-- `ResNet.build_network(input_shape, output_size)`: the layer graph in
construction order, or `none` when a residual block raises. -/
def ResNet.build_network (hp : Hyper) (input_shape : Shape3) (output_size : ℕ) :
    Option (List LayerOp) :=
  let n := (num_conv_layers input_shape.d1 hp.min_data_width).toNat
  match resStages hp n input_shape hp.min_filters 0 with
  | none => none
  | some (stageLayers, _) =>
    some (LayerOp.inputL input_shape :: stageLayers ++
      [LayerOp.flattenL] ++
      (if hp.use_dropout then [LayerOp.dropoutL hp.dropout_alpha] else []) ++
      [LayerOp.dense output_size, LayerOp.hiddenAct hp.output_activation "activation_output"])

/-!
Training drivers.  The drivers are modelled as trace builders: each run
records, in program order, the models built and compiled, the calls to
`model.fit` with the batch size passed, the `save_model` calls, whether
`sess.close()` was reached, and whether an exception escaped.  The data
arrays themselves are abstracted away (only control flow and the batch
size matter to the properties below); an exception raised by `model.fit`
is modelled by the boolean `fitRaises`, in which case the statements after
the `fit` call do not run and the exception propagates.
-/

/-- A model object: either the result of the `n`-th call to
`build_network` of the run, or a `multi_gpu_model` replica wrapper. -/
inductive MModel where
  | net (buildId : ℕ)
  | multiGpu (base : MModel) (gpus : ℕ)
deriving DecidableEq

/-- `true` exactly for models produced by `multi_gpu_model`. -/
def MModel.isReplicated : MModel → Bool
  | MModel.net _ => false
  | MModel.multiGpu _ _ => true

/-- One call to the engine's `model.fit`. -/
structure FitCall where
  model : MModel
  batch_size : ℕ
deriving DecidableEq

/-- The observable trace of one driver run. -/
structure Trace where
  builds : ℕ := 0
  compiles : List MModel := []
  fits : List FitCall := []
  saves : List (MModel × String) := []
  sessionClosed : Bool := false
  raised : Bool := false
deriving DecidableEq

/-- Mutable state of a `StandardConvNet`/`ResNet` object that the drivers
touch: the current `self.model` and `self.batch_size`. -/
structure SCNState where
  batch_size : ℕ
  model : Option MModel
deriving DecidableEq

/-- `self.build_network(...)` as the drivers observe it: a fresh model. -/
def SCNState.buildNetwork (st : SCNState) (tr : Trace) : SCNState × Trace :=
  ({ st with model := some (MModel.net (tr.builds + 1)) }, { tr with builds := tr.builds + 1 })

/-- `self.compile_model()`: records which model was compiled. -/
def SCNState.compileModel (st : SCNState) (tr : Trace) : Trace :=
  { tr with compiles := tr.compiles ++ [st.model.getD (MModel.net 0)] }

/-- `StandardConvNet.fit(x, y, ...)` (inherited unchanged by `ResNet`):
with the default `build=True` it first rebuilds `self.model` and compiles
it, then calls `self.model.fit(..., batch_size=self.batch_size, ...)`. -/
def SCNState.fit (st : SCNState) (tr : Trace) (build : Bool) (fitRaises : Bool) :
    SCNState × Trace :=
  let (st, tr) :=
    if build then
      let (st, tr) := st.buildNetwork tr
      (st, st.compileModel tr)
    else (st, tr)
  let m := st.model.getD (MModel.net 0)
  (st, { tr with fits := tr.fits ++ [⟨m, st.batch_size⟩], raised := fitRaises })

/-- The file name `"goes16_resnet_gpus_{0:02d}.h5".format(num_gpus)`
(format string quoted here without its literal braces). -/
def gpuSaveName (num_gpus : ℕ) : String :=
  "goes16_resnet_gpus_" ++ pad2 num_gpus ++ ".h5"

/-- `train_conv_net_cpu`: builds a `StandardConvNet`, fits it inside the
CPU device scope, then closes the session.  No `save_model` call occurs,
and `sess.close()` is not inside a `try/finally`, so an exception raised
by `fit` skips it. -/
def train_conv_net_cpu (hp : Hyper) (fitRaises : Bool) : Trace :=
  let st : SCNState := ⟨hp.batch_size, none⟩
  let (_, tr) := st.fit {} true fitRaises
  if tr.raised then tr else { tr with sessionClosed := true }

/-- `train_conv_net_gpu`: for `num_gpus == 1` builds and fits a `ResNet`;
for `num_gpus > 1` multiplies `self.batch_size` by `num_gpus`, builds the
network, replaces `self.model` by `multi_gpu_model(self.model, num_gpus)`,
compiles it, and calls `self.fit(...)` — with the default `build=True`,
so `fit` rebuilds and compiles a fresh unreplicated model and fits that;
for `num_gpus == 0` only prints.  If `scn` was created, the current
`scn.model` is saved to `gpuSaveName num_gpus`; `sess.close()` runs last
and is skipped when `fit` raises. -/
def train_conv_net_gpu (hp : Hyper) (num_gpus : ℕ) (fitRaises : Bool) : Trace :=
  if num_gpus = 1 then
    let st : SCNState := ⟨hp.batch_size, none⟩
    let (st, tr) := st.fit {} true fitRaises
    if tr.raised then tr
    else
      let tr := { tr with saves := tr.saves ++ [(st.model.getD (MModel.net 0), gpuSaveName num_gpus)] }
      { tr with sessionClosed := true }
  else if 1 < num_gpus then
    let st : SCNState := ⟨hp.batch_size * num_gpus, none⟩
    let (st, tr) := st.buildNetwork ({} : Trace)
    let st := { st with model := some (MModel.multiGpu (st.model.getD (MModel.net 0)) num_gpus) }
    let tr := st.compileModel tr
    let (st, tr) := st.fit tr true fitRaises
    if tr.raised then tr
    else
      let tr := { tr with saves := tr.saves ++ [(st.model.getD (MModel.net 0), gpuSaveName num_gpus)] }
      { tr with sessionClosed := true }
  else
    { ({} : Trace) with sessionClosed := true }

/-- The batch sizes passed to the engine's `model.fit`, in order. -/
def fitBatches (tr : Trace) : List ℕ :=
  tr.fits.map (fun f => f.batch_size)

/-- The models passed to the engine's `model.fit`, in order. -/
def fitModels (tr : Trace) : List MModel :=
  tr.fits.map (fun f => f.model)

/-- The file paths passed to `save_model`, in order. -/
def savedPaths (tr : Trace) : List String :=
  tr.saves.map Prod.snd

/-!
`MinMaxScaler2D`.  Arrays of shape (examples, variable, y, x) are modelled
by their shape and a total valuation function; the numpy dtype is kept as
a two-valued tag, since storing a float into an integer-dtyped array
truncates toward zero.
-/

/-- The element dtype of a numpy array, as far as storage semantics go. -/
inductive NpDtype where
  | float
  | int
deriving DecidableEq

/-- A 4D numpy array of shape `(nEx, nVar, nY, nX)`: axis 1 is the
variable (channel) axis. -/
structure Arr4 where
  dtype : NpDtype
  nEx : ℕ
  nVar : ℕ
  nY : ℕ
  nX : ℕ
  val : ℕ → ℕ → ℕ → ℕ → ℚ

/-- Storing a value into an array of the given dtype: identity for float,
C-style truncation toward zero for int (numpy's unsafe cast). -/
def npStore (dt : NpDtype) (q : ℚ) : ℚ :=
  match dt with
  | NpDtype.float => q
  | NpDtype.int => (pytrunc q : ℚ)

/-- All entries of `x[:, v]` (over examples and both spatial axes), the
values `x[:, v].min()` / `x[:, v].max()` range over. -/
def cellsOf (x : Arr4) (v : ℕ) : List ℚ :=
  (List.range x.nEx).flatMap fun i =>
    (List.range x.nY).flatMap fun j =>
      (List.range x.nX).map fun k => x.val i v j k

/-- `numpy.min` of a nonempty list (the empty case never occurs on the
claims' domain; numpy raises there). -/
def npMin : List ℚ → ℚ
  | [] => 0
  | h :: t => t.foldl min h

/-- `numpy.max` of a nonempty list. -/
def npMax : List ℚ → ℚ
  | [] => 0
  | h :: t => t.foldl max h

/-- The fitted `scale_values` table: one `(min, max, range)` row per
variable index in `arange(x.shape[1])`. -/
structure ScaleValues where
  nVars : ℕ
  minv : ℕ → ℚ
  maxv : ℕ → ℚ
  rangev : ℕ → ℚ

/-- The `MinMaxScaler2D` object: `out_range` is set by the constructor to
`out_max - out_min`, and `scale_values` is `None` until `fit` runs. -/
structure MinMaxScaler2D where
  out_min : ℚ := 0
  out_max : ℚ := 1
  out_range : ℚ := out_max - out_min
  scale_values : Option ScaleValues := none

/-- The table `MinMaxScaler2D.fit(x)` computes: per variable `v`,
`min = x[:, v].min()`, `max = x[:, v].max()`, `range = max - min`. -/
def MinMaxScaler2D.fitValues (x : Arr4) : ScaleValues :=
  { nVars := x.nVar,
    minv := fun v => npMin (cellsOf x v),
    maxv := fun v => npMax (cellsOf x v),
    rangev := fun v => npMax (cellsOf x v) - npMin (cellsOf x v) }

/-- `MinMaxScaler2D.fit(x)`: records the fitted table on the scaler. -/
def MinMaxScaler2D.fit (sc : MinMaxScaler2D) (x : Arr4) : MinMaxScaler2D :=
  { sc with scale_values := some (MinMaxScaler2D.fitValues x) }

/-- One element of `transform`'s output, for a variable `v` of the fitted
table: the first assignment stores `(q - min) / range` into the output
array (truncating for integer dtypes); when `out_min != 0 or out_max != 1`
the second assignment reads that stored value back and stores
`value * out_range + out_min`. -/
def transformElem (sc : MinMaxScaler2D) (sv : ScaleValues) (dt : NpDtype) (v : ℕ) (q : ℚ) : ℚ :=
  let t := npStore dt ((q - sv.minv v) / sv.rangev v)
  if sc.out_min ≠ 0 ∨ sc.out_max ≠ 1 then npStore dt (t * sc.out_range + sc.out_min) else t

/-- `MinMaxScaler2D.transform(x)`: raises `AttributeError` when the scaler
was never fitted (`scale_values is None`), raises
`ValueError("Input x does not have the correct number of variables")` when
`x.shape[1] != scale_values.index.size`, and otherwise fills a fresh
`np.zeros(x.shape, dtype=x.dtype)` array variable by variable (entries at
variable indices outside the fitted table keep the zero fill, which cannot
happen when the shapes agree). -/
def MinMaxScaler2D.transform (sc : MinMaxScaler2D) (x : Arr4) : Except String Arr4 :=
  match sc.scale_values with
  | none => Except.error "AttributeError: scale_values is None"
  | some sv =>
    if x.nVar ≠ sv.nVars then
      Except.error "Input x does not have the correct number of variables"
    else
      Except.ok
        { dtype := x.dtype, nEx := x.nEx, nVar := x.nVar, nY := x.nY, nX := x.nX,
          val := fun i v j k =>
            if v < sv.nVars then transformElem sc sv x.dtype v (x.val i v j k) else 0 }

/-- `MinMaxScaler2D.fit_transform(x)`: `fit` then `transform` on `x`. -/
def MinMaxScaler2D.fit_transform (sc : MinMaxScaler2D) (x : Arr4) : Except String Arr4 :=
  MinMaxScaler2D.transform (MinMaxScaler2D.fit sc x) x

/-- Whether a `transform` call raised. -/
def isError (r : Except String Arr4) : Bool :=
  match r with
  | Except.error _ => true
  | Except.ok _ => false

/-- The element at `(i, v, j, k)` of a successful `transform` result
(`0` for a raised call; accessor used only to state properties). -/
def exceptVal (r : Except String Arr4) (i v j k : ℕ) : ℚ :=
  match r with
  | Except.error _ => 0
  | Except.ok a => a.val i v j k

/-- The dtype of a successful `transform` result (`none` for a raise). -/
def exceptDtype (r : Except String Arr4) : Option NpDtype :=
  match r with
  | Except.error _ => none
  | Except.ok a => some a.dtype

/-- The shape of a successful `transform` result (`none` for a raise). -/
def exceptShape (r : Except String Arr4) : Option (ℕ × ℕ × ℕ × ℕ) :=
  match r with
  | Except.error _ => none
  | Except.ok a => some (a.nEx, a.nVar, a.nY, a.nX)

/-!
Helper lemmas about the builders.
-/

lemma countPool_hiddenActivationLayer (hp : Hyper) (nm : String) (rest : List LayerOp) :
    countPool (hiddenActivationLayer hp nm :: rest) = countPool rest := by
  unfold hiddenActivationLayer
  split <;> rfl

lemma countPool_poolingLayer (hp : Hyper) (nm : String) (rest : List LayerOp) :
    countPool (poolingLayer hp nm :: rest) = countPool rest + 1 := by
  unfold poolingLayer
  split <;> rfl

lemma countPool_append (l1 l2 : List LayerOp) :
    countPool (l1 ++ l2) = countPool l1 + countPool l2 := by
  induction l1 with
  | nil => simp [countPool]
  | cons h t ih => cases h <;> simp [countPool, ih] <;> omega

lemma denseUnitsOf_hiddenActivationLayer (hp : Hyper) (nm : String) (rest : List LayerOp) :
    denseUnitsOf (hiddenActivationLayer hp nm :: rest) = denseUnitsOf rest := by
  unfold hiddenActivationLayer
  split <;> rfl

lemma denseUnitsOf_poolingLayer (hp : Hyper) (nm : String) (rest : List LayerOp) :
    denseUnitsOf (poolingLayer hp nm :: rest) = denseUnitsOf rest := by
  unfold poolingLayer
  split <;> rfl

lemma denseUnitsOf_append (l1 l2 : List LayerOp) :
    denseUnitsOf (l1 ++ l2) = denseUnitsOf l1 ++ denseUnitsOf l2 := by
  induction l1 with
  | nil => simp [denseUnitsOf]
  | cons h t ih => cases h <;> simp [denseUnitsOf, ih]

lemma convFiltersOf_hiddenActivationLayer (hp : Hyper) (nm : String) (rest : List LayerOp) :
    convFiltersOf (hiddenActivationLayer hp nm :: rest) = convFiltersOf rest := by
  unfold hiddenActivationLayer
  split <;> rfl

lemma convFiltersOf_poolingLayer (hp : Hyper) (nm : String) (rest : List LayerOp) :
    convFiltersOf (poolingLayer hp nm :: rest) = convFiltersOf rest := by
  unfold poolingLayer
  split <;> rfl

lemma convFiltersOf_append (l1 l2 : List LayerOp) :
    convFiltersOf (l1 ++ l2) = convFiltersOf l1 ++ convFiltersOf l2 := by
  induction l1 with
  | nil => simp [convFiltersOf]
  | cons h t ih => cases h <;> simp [convFiltersOf, ih]

/-- The stage loop of `StandardConvNet.build_network` emits exactly one
pooling layer per iteration. -/
lemma countPool_scnStages (hp : Hyper) (n : ℕ) :
    ∀ (s : Shape3) (f c : ℕ), countPool (scnStages hp n s f c).1 = n := by
  induction n with
  | zero => intro s f c; rfl
  | succ n ih =>
    intro s f c
    simp only [scnStages, countPool, countPool_hiddenActivationLayer, countPool_poolingLayer, ih]

/-- The stage loop of `StandardConvNet.build_network` contains no dense
layer. -/
lemma denseUnitsOf_scnStages (hp : Hyper) (n : ℕ) :
    ∀ (s : Shape3) (f c : ℕ), denseUnitsOf (scnStages hp n s f c).1 = [] := by
  induction n with
  | zero => intro s f c; rfl
  | succ n ih =>
    intro s f c
    simp only [scnStages, denseUnitsOf, denseUnitsOf_hiddenActivationLayer,
      denseUnitsOf_poolingLayer, ih]

/-- Shifting the starting value of `filterSeq` by one step. -/
lemma filterSeq_shift (f0 : ℕ) (g : ℚ) (i : ℕ) :
    filterSeq ((pytrunc ((f0 : ℚ) * g)).toNat) g i = filterSeq f0 g (i + 1) := by
  induction i with
  | zero => rfl
  | succ i ih => simp only [filterSeq, ih]

/-- The convolution filters emitted by the stage loop are the iterated
truncated products starting from the incoming filter count. -/
lemma convFiltersOf_scnStages (hp : Hyper) (n : ℕ) :
    ∀ (s : Shape3) (f c : ℕ),
      convFiltersOf (scnStages hp n s f c).1
        = (List.range n).map (filterSeq f hp.filter_growth_rate) := by
  induction n with
  | zero => intro s f c; rfl
  | succ n ih =>
    intro s f c
    rw [List.range_succ_eq_map]
    simp only [scnStages, convFiltersOf, convFiltersOf_hiddenActivationLayer,
      convFiltersOf_poolingLayer, ih, List.map_cons, List.map_map]
    congr 1
    apply List.map_congr_left
    intro i _
    simpa [nextFilters, Function.comp] using filterSeq_shift f hp.filter_growth_rate i

/-- Depth computation: when the width is exactly `m * 2 ^ k`, the derived
stage count is exactly `k`. -/
lemma num_conv_layers_pow (m k : ℕ) (hm : 1 ≤ m) :
    num_conv_layers (m * 2 ^ k) m = k := by
  unfold num_conv_layers
  have hm0 : (m : ℚ) ≠ 0 := by
    have : m ≠ 0 := by omega
    exact_mod_cast this
  have : ((m * 2 ^ k : ℕ) : ℚ) / (m : ℚ) = ((2 ^ k : ℕ) : ℚ) := by
    rw [div_eq_iff hm0]
    push_cast
    ring
  rw [this, Int.log_natCast, Nat.log_pow (by norm_num)]

/-- A residual block emits no pooling layer. -/
lemma countPool_residual_block (hp : Hyper) (f : ℕ) (s : Shape3) (c : ℕ) :
    countPool (ResNet.residual_block hp f s c).layers = 0 := by
  unfold ResNet.residual_block
  by_cases hpj : s.d2 ≠ f <;>
    simp [hpj, countPool_append, countPool, countPool_hiddenActivationLayer]

/-- A residual block emits no dense layer. -/
lemma denseUnitsOf_residual_block (hp : Hyper) (f : ℕ) (s : Shape3) (c : ℕ) :
    denseUnitsOf (ResNet.residual_block hp f s c).layers = [] := by
  unfold ResNet.residual_block
  by_cases hpj : s.d2 ≠ f <;>
    simp [hpj, denseUnitsOf_append, denseUnitsOf, denseUnitsOf_hiddenActivationLayer]

/-- A graph produced by the stage loop of `ResNet.build_network` has
exactly one pooling layer per iteration. -/
lemma countPool_resStages (hp : Hyper) (n : ℕ) :
    ∀ (s : Shape3) (f c : ℕ) (l : List LayerOp) (sf : Shape3),
      resStages hp n s f c = some (l, sf) → countPool l = n := by
  induction n with
  | zero =>
    intro s f c l sf h
    simp only [resStages, Option.some.injEq] at h
    obtain ⟨h1, _⟩ := Prod.mk.injEq .. ▸ h
    simp [← h1, countPool]
  | succ n ih =>
    intro s f c l sf h
    simp only [resStages] at h
    cases hout : (ResNet.residual_block hp f s c).out with
    | none => rw [hout] at h; simp at h
    | some s1 =>
      rw [hout] at h
      dsimp only at h
      cases hrec : resStages hp n (poolShape hp.data_format s1) (nextFilters hp f) (c + 1) with
      | none => rw [hrec] at h; simp at h
      | some p =>
        obtain ⟨rest, sfin⟩ := p
        rw [hrec] at h
        dsimp only at h
        simp only [Option.some.injEq, Prod.mk.injEq] at h
        rw [← h.1, countPool_append, countPool_residual_block, countPool_poolingLayer,
          ih _ _ _ _ _ hrec]
        omega

/-- A graph produced by the stage loop of `ResNet.build_network` contains
no dense layer. -/
lemma denseUnitsOf_resStages (hp : Hyper) (n : ℕ) :
    ∀ (s : Shape3) (f c : ℕ) (l : List LayerOp) (sf : Shape3),
      resStages hp n s f c = some (l, sf) → denseUnitsOf l = [] := by
  induction n with
  | zero =>
    intro s f c l sf h
    simp only [resStages, Option.some.injEq] at h
    have hl : l = [] := by
      have := congrArg Prod.fst h
      simpa using this.symm
    simp [hl, denseUnitsOf]
  | succ n ih =>
    intro s f c l sf h
    simp only [resStages] at h
    cases hout : (ResNet.residual_block hp f s c).out with
    | none => rw [hout] at h; simp at h
    | some s1 =>
      rw [hout] at h
      dsimp only at h
      cases hrec : resStages hp n (poolShape hp.data_format s1) (nextFilters hp f) (c + 1) with
      | none => rw [hrec] at h; simp at h
      | some p =>
        obtain ⟨rest, sfin⟩ := p
        rw [hrec] at h
        dsimp only at h
        simp only [Option.some.injEq, Prod.mk.injEq] at h
        rw [← h.1, denseUnitsOf_append, denseUnitsOf_residual_block,
          denseUnitsOf_poolingLayer, ih _ _ _ _ _ hrec]
        rfl

/-- `Add` on two equal shapes never raises. -/
lemma addShape_self (s : Shape3) : addShape s s = some s := by
  simp [addShape, broadcastDim]

/-- Under `channels_last` the shortcut check reads the channel axis, so a
residual block always succeeds and its output keeps the input's spatial
dimensions with `filters` channels. -/
lemma residual_block_out_channels_last (hp : Hyper) (f : ℕ) (s : Shape3) (c : ℕ)
    (h : hp.data_format = "channels_last") :
    (ResNet.residual_block hp f s c).out = some ⟨s.d0, s.d1, f⟩ := by
  unfold ResNet.residual_block
  by_cases hpj : s.d2 ≠ f
  · simp [hpj, h, convShape, addShape_self]
  · push_neg at hpj
    simp only [ne_eq, hpj, not_true_eq_false, if_neg, if_false, ite_false, ite_self]
    simp [convShape, h, ← hpj, addShape_self]

/-- Under `channels_last` the stage loop of `ResNet.build_network` always
produces a graph. -/
lemma resStages_channels_last_isSome (hp : Hyper) (n : ℕ)
    (h : hp.data_format = "channels_last") :
    ∀ (s : Shape3) (f c : ℕ), (resStages hp n s f c).isSome = true := by
  induction n with
  | zero => intro s f c; rfl
  | succ n ih =>
    intro s f c
    simp only [resStages, residual_block_out_channels_last hp f s c h]
    cases hrec : resStages hp n (poolShape hp.data_format ⟨s.d0, s.d1, f⟩)
        (nextFilters hp f) (c + 1) with
    | none => exact absurd (ih (poolShape hp.data_format ⟨s.d0, s.d1, f⟩) (nextFilters hp f) (c + 1)) (by simp [hrec])
    | some p => simp

/-- `ResNet.build_network` fails exactly when its stage loop fails. -/
lemma ResNet_build_eq_none_iff (hp : Hyper) (s : Shape3) (out : ℕ) :
    ResNet.build_network hp s out = none ↔
      resStages hp ((num_conv_layers s.d1 hp.min_data_width).toNat) s hp.min_filters 0 = none := by
  unfold ResNet.build_network
  cases h : resStages hp ((num_conv_layers s.d1 hp.min_data_width).toNat) s hp.min_filters 0 with
  | none => simp [h]
  | some p => simp [h]

/-- Decomposition of a successful `ResNet.build_network` run. -/
lemma ResNet_build_some (hp : Hyper) (s : Shape3) (out : ℕ) (g : List LayerOp)
    (h : ResNet.build_network hp s out = some g) :
    ∃ l sf,
      resStages hp ((num_conv_layers s.d1 hp.min_data_width).toNat) s hp.min_filters 0
        = some (l, sf)
      ∧ g = LayerOp.inputL s :: l ++ [LayerOp.flattenL] ++
          (if hp.use_dropout then [LayerOp.dropoutL hp.dropout_alpha] else []) ++
          [LayerOp.dense out, LayerOp.hiddenAct hp.output_activation "activation_output"] := by
  unfold ResNet.build_network at h
  cases hres : resStages hp ((num_conv_layers s.d1 hp.min_data_width).toNat) s hp.min_filters 0 with
  | none => simp only [hres] at h; simp at h
  | some p =>
    obtain ⟨l, sf⟩ := p
    simp only [hres] at h
    refine ⟨l, sf, rfl, ?_⟩
    simpa using h.symm

/-- A hyperparameter set used for concrete checks: the constructor
defaults with `data_format="channels_last"`. -/
def hpDemoCL : Hyper := { data_format := "channels_last" }

/-- Claim C1, counterexample. The claim asserts that for every
hyperparameter set, `ResNet.build_network` on an input of spatial width
`min_data_width * 2 ^ k` produces a graph with `k` residual-block/pooling
stages.  With the default hyperparameters (`channels_first`,
`min_filters = 16`, `min_data_width = 4`) and input shape `(3, 16, 16)`
(width `16 = 4 * 2 ^ 2`), the first residual block's shortcut check
compares the last axis (16) with the filter count (16), takes the identity
shortcut although the channel count is 3, and `Add` raises: no graph is
produced at all. -/
theorem claim1_counterexample :
    ResNet.build_network { } ⟨3, 16, 16⟩ 1 = none
    ∧ 16 = Hyper.min_data_width { } * 2 ^ 2 := by
  refine ⟨?_, by norm_num⟩
  rw [ResNet_build_eq_none_iff]
  have harg : (num_conv_layers (Shape3.mk 3 16 16).d1 (Hyper.min_data_width { })).toNat = 2 := by
    show (num_conv_layers 16 4).toNat = 2
    have h := num_conv_layers_pow 4 2 (by norm_num)
    norm_num at h
    rw [h]
    rfl
  rw [harg]
  rfl

/-- Claim C1 (amended). For every hyperparameter set with
`min_data_width ≥ 1`, every output size, and every input shape whose
dimension at index 1 (the spatial width the code reads) equals
`min_data_width * 2 ^ k`: `StandardConvNet.build_network` produces a graph
with exactly `k` convolution/pooling stages and a single dense layer of
exactly `output_size` units; any graph `ResNet.build_network` produces
likewise has exactly `k` residual-block/pooling stages and `output_size`
dense units, and under `channels_last` a graph is always produced (under
`channels_first` production can fail, because of the shortcut check
reading the last axis). -/
theorem claim1_thm (hp : Hyper) (k a b out : ℕ) (hm : 1 ≤ hp.min_data_width) :
    countPool (StandardConvNet.build_network hp ⟨a, hp.min_data_width * 2 ^ k, b⟩ out) = k
    ∧ denseUnitsOf (StandardConvNet.build_network hp ⟨a, hp.min_data_width * 2 ^ k, b⟩ out)
        = [out]
    ∧ (Option.map countPool (ResNet.build_network hp ⟨a, hp.min_data_width * 2 ^ k, b⟩ out)).getD k
        = k
    ∧ (Option.map denseUnitsOf
        (ResNet.build_network hp ⟨a, hp.min_data_width * 2 ^ k, b⟩ out)).getD [out] = [out]
    ∧ (hp.data_format = "channels_last" →
        (ResNet.build_network hp ⟨a, hp.min_data_width * 2 ^ k, b⟩ out).isSome = true) := by
  have hk : (num_conv_layers (Shape3.mk a (hp.min_data_width * 2 ^ k) b).d1
      hp.min_data_width).toNat = k := by
    show (num_conv_layers (hp.min_data_width * 2 ^ k) hp.min_data_width).toNat = k
    rw [num_conv_layers_pow _ _ hm]
    exact Int.toNat_natCast k
  refine ⟨?_, ?_, ?_, ?_, ?_⟩
  · simp only [StandardConvNet.build_network, hk]
    by_cases hd : hp.use_dropout <;>
      simp [hd, countPool, countPool_append, countPool_scnStages]
  · simp only [StandardConvNet.build_network, hk]
    by_cases hd : hp.use_dropout <;>
      simp [hd, denseUnitsOf, denseUnitsOf_append, denseUnitsOf_scnStages]
  · cases hres : ResNet.build_network hp ⟨a, hp.min_data_width * 2 ^ k, b⟩ out with
    | none => simp
    | some g =>
      obtain ⟨l, sf, hstage, hg⟩ := ResNet_build_some hp _ out g hres
      rw [hk] at hstage
      have hcl : countPool l = k := countPool_resStages hp k _ _ _ _ _ hstage
      subst hg
      by_cases hd : hp.use_dropout <;>
        simp [hd, countPool, countPool_append, hcl]
  · cases hres : ResNet.build_network hp ⟨a, hp.min_data_width * 2 ^ k, b⟩ out with
    | none => simp
    | some g =>
      obtain ⟨l, sf, hstage, hg⟩ := ResNet_build_some hp _ out g hres
      rw [hk] at hstage
      have hdl : denseUnitsOf l = [] := denseUnitsOf_resStages hp k _ _ _ _ _ hstage
      subst hg
      by_cases hd : hp.use_dropout <;>
        simp [hd, denseUnitsOf, denseUnitsOf_append, hdl]
  · intro hcl
    unfold ResNet.build_network
    cases hres : resStages hp ((num_conv_layers (Shape3.mk a (hp.min_data_width * 2 ^ k) b).d1
        hp.min_data_width).toNat) ⟨a, hp.min_data_width * 2 ^ k, b⟩ hp.min_filters 0 with
    | none =>
      have := resStages_channels_last_isSome hp
        ((num_conv_layers (Shape3.mk a (hp.min_data_width * 2 ^ k) b).d1
          hp.min_data_width).toNat) hcl ⟨a, hp.min_data_width * 2 ^ k, b⟩ hp.min_filters 0
      rw [hres] at this
      simp at this
    | some p => simp [hres]

/-- Witness for `claim1_thm` at a concrete input: `channels_last` default
hyperparameters, input shape `(32, 32, 1)` with `32 = 4 * 2 ^ 3`, output
size 5. -/
theorem claim1_witness :
    1 ≤ hpDemoCL.min_data_width
    ∧ (countPool (StandardConvNet.build_network hpDemoCL
          ⟨32, hpDemoCL.min_data_width * 2 ^ 3, 1⟩ 5) = 3
      ∧ denseUnitsOf (StandardConvNet.build_network hpDemoCL
          ⟨32, hpDemoCL.min_data_width * 2 ^ 3, 1⟩ 5) = [5]
      ∧ (Option.map countPool (ResNet.build_network hpDemoCL
          ⟨32, hpDemoCL.min_data_width * 2 ^ 3, 1⟩ 5)).getD 3 = 3
      ∧ (Option.map denseUnitsOf (ResNet.build_network hpDemoCL
          ⟨32, hpDemoCL.min_data_width * 2 ^ 3, 1⟩ 5)).getD [5] = [5]
      ∧ (hpDemoCL.data_format = "channels_last" →
          (ResNet.build_network hpDemoCL
            ⟨32, hpDemoCL.min_data_width * 2 ^ 3, 1⟩ 5).isSome = true)) :=
  ⟨by decide, claim1_thm hpDemoCL 3 32 1 5 (by decide)⟩

/-- Claim C2, code-bug evaluation. Under the default
`data_format="channels_first"`, `residual_block(32, ...)` on an input of
shape `(channels=8, height=16, width=32)` compares the LAST axis (the
spatial width, 32) with the filter count and therefore takes the identity
shortcut even though the channel count (8) differs from the target filter
count (32); `Add` then receives a 32-channel main path and an 8-channel
shortcut and raises, so the block has no output of any shape — contradicting
both the projection-iff-channel-mismatch rule and the output-shape rule of
the claim. -/
theorem claim2_code_bug :
    Hyper.data_format { } = "channels_first"
    ∧ channelsOf (Hyper.data_format { }) ⟨8, 16, 32⟩ = 8
    ∧ (ResNet.residual_block { } 32 ⟨8, 16, 32⟩ 0).projected = false
    ∧ (ResNet.residual_block { } 32 ⟨8, 16, 32⟩ 0).out = none := by
  refine ⟨rfl, rfl, rfl, ?_⟩
  rfl

/-- One evaluation step of `filterSeq` on concrete numbers. -/
lemma filterSeq_eval_step (f0 v w : ℕ) (g : ℚ) (i : ℕ)
    (hv : filterSeq f0 g i = v) (hw : pytrunc ((v : ℚ) * g) = (w : ℤ)) :
    filterSeq f0 g (i + 1) = w := by
  simp [filterSeq, hv, hw]

/-- `filterSeq 16 2` starts `16, 32, 64, 128`. -/
lemma filterSeq_sixteen_two :
    (List.range 4).map (filterSeq 16 2) = [16, 32, 64, 128] := by
  have e0 : filterSeq 16 2 0 = 16 := rfl
  have e1 : filterSeq 16 2 1 = 32 :=
    filterSeq_eval_step 16 16 32 2 0 e0 (by norm_num [pytrunc])
  have e2 : filterSeq 16 2 2 = 64 :=
    filterSeq_eval_step 16 32 64 2 1 e1 (by norm_num [pytrunc])
  have e3 : filterSeq 16 2 3 = 128 :=
    filterSeq_eval_step 16 64 128 2 2 e2 (by norm_num [pytrunc])
  simp [List.range_succ, e0, e1, e2, e3]

/-- `filterSeq 16 1.1` starts `16, 17, 18, 19`: the truncation compounds. -/
lemma filterSeq_sixteen_eleven_tenths :
    (List.range 4).map (filterSeq 16 (11/10)) = [16, 17, 18, 19] := by
  have e0 : filterSeq 16 (11/10) 0 = 16 := rfl
  have e1 : filterSeq 16 (11/10) 1 = 17 :=
    filterSeq_eval_step 16 16 17 (11/10) 0 e0 (by norm_num [pytrunc])
  have e2 : filterSeq 16 (11/10) 2 = 18 :=
    filterSeq_eval_step 16 17 18 (11/10) 1 e1 (by norm_num [pytrunc])
  have e3 : filterSeq 16 (11/10) 3 = 19 :=
    filterSeq_eval_step 16 18 19 (11/10) 2 e2 (by norm_num [pytrunc])
  simp [List.range_succ, e0, e1, e2, e3]

/-- Claim C3. The filter counts of the convolution stages are computed
iteratively: the stage loop of `StandardConvNet.build_network` emits
exactly the sequence `filterSeq min_filters growth_rate`, which satisfies
`filters[0] = min_filters` and
`filters[i+1] = floor(filters[i] * growth_rate)` (for nonnegative growth
rates, `int()` truncation is the floor); for `min_filters = 16` and
`growth_rate = 2` the emitted sequence is exactly `[16, 32, 64, 128]`
(default hyperparameters, input width `64 = 4 * 2 ^ 4`).  The sequence is
genuinely compounding: for `growth_rate = 1.1` the fourth iterate is 19,
not the closed-form `int(16 * 1.1 ^ 3) = 21`. -/
theorem claim3_thm (hp : Hyper) (k a b out i : ℕ)
    (hg : 0 ≤ hp.filter_growth_rate) (hm : 1 ≤ hp.min_data_width) :
    convFiltersOf (StandardConvNet.build_network hp ⟨a, hp.min_data_width * 2 ^ k, b⟩ out)
      = (List.range k).map (filterSeq hp.min_filters hp.filter_growth_rate)
    ∧ filterSeq hp.min_filters hp.filter_growth_rate 0 = hp.min_filters
    ∧ ((filterSeq hp.min_filters hp.filter_growth_rate (i + 1) : ℤ)
        = ⌊(filterSeq hp.min_filters hp.filter_growth_rate i : ℚ) * hp.filter_growth_rate⌋)
    ∧ convFiltersOf (StandardConvNet.build_network { } ⟨1, 64, 64⟩ 1) = [16, 32, 64, 128]
    ∧ (List.range 4).map (filterSeq 16 (11/10)) = [16, 17, 18, 19]
    ∧ filterSeq 16 (11/10) 3 ≠ (pytrunc ((16 : ℚ) * (11/10) ^ 3)).toNat := by
  have hgen : ∀ (hp' : Hyper) (k' a' b' out' : ℕ), 1 ≤ hp'.min_data_width →
      convFiltersOf (StandardConvNet.build_network hp'
        ⟨a', hp'.min_data_width * 2 ^ k', b'⟩ out')
      = (List.range k').map (filterSeq hp'.min_filters hp'.filter_growth_rate) := by
    intro hp' k' a' b' out' hm'
    have hk : (num_conv_layers (Shape3.mk a' (hp'.min_data_width * 2 ^ k') b').d1
        hp'.min_data_width).toNat = k' := by
      show (num_conv_layers (hp'.min_data_width * 2 ^ k') hp'.min_data_width).toNat = k'
      rw [num_conv_layers_pow _ _ hm']
      exact Int.toNat_natCast k'
    simp only [StandardConvNet.build_network, hk]
    by_cases hd : hp'.use_dropout <;>
      simp [hd, convFiltersOf, convFiltersOf_append, convFiltersOf_scnStages]
  refine ⟨hgen hp k a b out hm, rfl, ?_, ?_, filterSeq_sixteen_eleven_tenths, ?_⟩
  · have hnn : (0 : ℚ) ≤ (filterSeq hp.min_filters hp.filter_growth_rate i : ℚ)
        * hp.filter_growth_rate := mul_nonneg (by positivity) hg
    have htr : pytrunc ((filterSeq hp.min_filters hp.filter_growth_rate i : ℚ)
        * hp.filter_growth_rate)
        = ⌊(filterSeq hp.min_filters hp.filter_growth_rate i : ℚ) * hp.filter_growth_rate⌋ := by
      unfold pytrunc
      rw [if_neg (not_lt.mpr hnn)]
    show ((pytrunc _).toNat : ℤ) = _
    rw [htr, Int.toNat_of_nonneg (Int.floor_nonneg.mpr hnn)]
  · have h64 : convFiltersOf (StandardConvNet.build_network { } ⟨1, 64, 64⟩ 1)
        = (List.range 4).map (filterSeq 16 2) := by
      have := hgen { } 4 1 64 1 (by norm_num)
      norm_num at this
      exact this
    rw [h64, filterSeq_sixteen_two]
  · have e3 : filterSeq 16 (11/10) 3 = 19 := by
      have := congrArg (fun l => l.getD 3 0) filterSeq_sixteen_eleven_tenths
      simpa [List.range_succ] using this
    have hcl : pytrunc ((16 : ℚ) * (11/10) ^ 3) = 21 := by norm_num [pytrunc]
    rw [e3, hcl]
    decide

/-- Witness for `claim3_thm` with the default hyperparameters at
`k = 4`, `i = 0`. -/
theorem claim3_witness :
    ((0 : ℚ) ≤ Hyper.filter_growth_rate { } ∧ 1 ≤ Hyper.min_data_width { })
    ∧ (convFiltersOf (StandardConvNet.build_network { }
          ⟨1, Hyper.min_data_width { } * 2 ^ 4, 64⟩ 1)
        = (List.range 4).map (filterSeq (Hyper.min_filters { }) (Hyper.filter_growth_rate { }))
      ∧ filterSeq (Hyper.min_filters { }) (Hyper.filter_growth_rate { }) 0
          = Hyper.min_filters { }
      ∧ ((filterSeq (Hyper.min_filters { }) (Hyper.filter_growth_rate { }) (0 + 1) : ℤ)
          = ⌊(filterSeq (Hyper.min_filters { }) (Hyper.filter_growth_rate { }) 0 : ℚ)
              * Hyper.filter_growth_rate { }⌋)
      ∧ convFiltersOf (StandardConvNet.build_network { } ⟨1, 64, 64⟩ 1) = [16, 32, 64, 128]
      ∧ (List.range 4).map (filterSeq 16 (11/10)) = [16, 17, 18, 19]
      ∧ filterSeq 16 (11/10) 3 ≠ (pytrunc ((16 : ℚ) * (11/10) ^ 3)).toNat) :=
  ⟨⟨by norm_num, by decide⟩, claim3_thm { } 4 1 64 1 0 (by norm_num) (by decide)⟩

/-!
Evaluation lemmas for the driver traces.
-/

lemma gpu_run_one_ok (hp : Hyper) :
    train_conv_net_gpu hp 1 false =
      ⟨1, [MModel.net 1], [⟨MModel.net 1, hp.batch_size⟩],
       [(MModel.net 1, gpuSaveName 1)], true, false⟩ := rfl

lemma gpu_run_one_raise (hp : Hyper) :
    train_conv_net_gpu hp 1 true =
      ⟨1, [MModel.net 1], [⟨MModel.net 1, hp.batch_size⟩], [], false, true⟩ := rfl

lemma gpu_run_many_ok (hp : Hyper) (n : ℕ) (hn : 2 ≤ n) :
    train_conv_net_gpu hp n false =
      ⟨2, [MModel.multiGpu (MModel.net 1) n, MModel.net 2],
       [⟨MModel.net 2, hp.batch_size * n⟩], [(MModel.net 2, gpuSaveName n)], true, false⟩ := by
  unfold train_conv_net_gpu
  rw [if_neg (by omega), if_pos (by omega)]
  rfl

lemma gpu_run_many_raise (hp : Hyper) (n : ℕ) (hn : 2 ≤ n) :
    train_conv_net_gpu hp n true =
      ⟨2, [MModel.multiGpu (MModel.net 1) n, MModel.net 2],
       [⟨MModel.net 2, hp.batch_size * n⟩], [], false, true⟩ := by
  unfold train_conv_net_gpu
  rw [if_neg (by omega), if_pos (by omega)]
  rfl

lemma gpu_run_zero (hp : Hyper) (b : Bool) :
    train_conv_net_gpu hp 0 b = ⟨0, [], [], [], true, false⟩ := rfl

lemma cpu_run_ok (hp : Hyper) :
    train_conv_net_cpu hp false =
      ⟨1, [MModel.net 1], [⟨MModel.net 1, hp.batch_size⟩], [], true, false⟩ := rfl

lemma cpu_run_raise (hp : Hyper) :
    train_conv_net_cpu hp true =
      ⟨1, [MModel.net 1], [⟨MModel.net 1, hp.batch_size⟩], [], false, true⟩ := rfl

/-- Claim C4, code-bug evaluation. In the multi-accelerator strategy
(`num_gpus = 2`) the driver builds the network (build 1), wraps it in
`multi_gpu_model` and compiles that replica — but then calls
`StandardConvNet.fit` with its default `build=True`, which rebuilds a
fresh unreplicated model (build 2), compiles it, and fits it: the model
passed to the engine's `fit` is `net 2`, not the replicated
`multiGpu (net 1) 2` that the claim (and the spec) say is fitted. -/
theorem claim4_code_bug :
    fitModels (train_conv_net_gpu { } 2 false) = [MModel.net 2]
    ∧ (MModel.net 2).isReplicated = false
    ∧ (train_conv_net_gpu { } 2 false).compiles
        = [MModel.multiGpu (MModel.net 1) 2, MModel.net 2]
    ∧ (MModel.multiGpu (MModel.net 1) 2).isReplicated = true
    ∧ fitModels (train_conv_net_gpu { } 2 false) ≠ [MModel.multiGpu (MModel.net 1) 2] := by
  rw [fitModels, gpu_run_many_ok { } 2 (by omega)]
  exact ⟨rfl, rfl, rfl, rfl, by decide⟩

/-- Claim C5. With the same configured `batch_size`, the multi-device
strategy at device count 2 passes exactly twice the batch size to the
engine's `fit` call that device count 1 passes (the driver multiplies
`self.batch_size` by `num_gpus` before fitting). -/
theorem claim5_thm (hp : Hyper) :
    fitBatches (train_conv_net_gpu hp 2 false) = [2 * hp.batch_size]
    ∧ fitBatches (train_conv_net_gpu hp 1 false) = [hp.batch_size] := by
  rw [fitBatches, gpu_run_many_ok hp 2 (by omega), fitBatches, gpu_run_one_ok hp]
  exact ⟨by simp [Nat.mul_comm], rfl⟩

/-- Claim C6, counterexample. `sess.close()` is not protected by a
`try/finally` (or `with`) block in either driver: when `fit` raises, the
exception propagates and the session is left open. -/
theorem claim6_counterexample :
    (train_conv_net_gpu { } 1 true).raised = true
    ∧ (train_conv_net_gpu { } 1 true).sessionClosed = false
    ∧ (train_conv_net_cpu { } true).raised = true
    ∧ (train_conv_net_cpu { } true).sessionClosed = false :=
  ⟨rfl, rfl, rfl, rfl⟩

/-- Claim C6 (amended). Both drivers close the session on normal
completion (including the zero-device branch, where no training runs),
but when training raises, the `sess.close()` call is skipped and the
session leaks — there is no scoped acquisition/release discipline. -/
theorem claim6_amended (hp : Hyper) (n : ℕ) (hn : 1 ≤ n) :
    (train_conv_net_gpu hp n false).sessionClosed = true
    ∧ (train_conv_net_cpu hp false).sessionClosed = true
    ∧ (train_conv_net_gpu hp 0 true).sessionClosed = true
    ∧ (train_conv_net_gpu hp n true).sessionClosed = false
    ∧ (train_conv_net_cpu hp true).sessionClosed = false := by
  rcases Nat.lt_or_ge n 2 with h2 | h2
  · have h1 : n = 1 := by omega
    subst h1
    rw [gpu_run_one_ok hp, gpu_run_one_raise hp, gpu_run_zero hp true,
      cpu_run_ok hp, cpu_run_raise hp]
    exact ⟨rfl, rfl, rfl, rfl, rfl⟩
  · rw [gpu_run_many_ok hp n h2, gpu_run_many_raise hp n h2, gpu_run_zero hp true,
      cpu_run_ok hp, cpu_run_raise hp]
    exact ⟨rfl, rfl, rfl, rfl, rfl⟩

/-- Witness for `claim6_amended` at `n = 1` with default hyperparameters. -/
theorem claim6_witness :
    1 ≤ 1
    ∧ ((train_conv_net_gpu { } 1 false).sessionClosed = true
      ∧ (train_conv_net_cpu { } false).sessionClosed = true
      ∧ (train_conv_net_gpu { } 0 true).sessionClosed = true
      ∧ (train_conv_net_gpu { } 1 true).sessionClosed = false
      ∧ (train_conv_net_cpu { } true).sessionClosed = false) :=
  ⟨by decide, claim6_amended { } 1 (by decide)⟩

/-- Claim C7, counterexample. The claim covers every strategy, but
`train_conv_net_cpu` trains a model (one completed `fit` call) and never
calls `save_model`: the trained CPU model is not persisted anywhere. -/
theorem claim7_counterexample :
    (train_conv_net_cpu { } false).fits = [⟨MModel.net 1, 256⟩]
    ∧ (train_conv_net_cpu { } false).raised = false
    ∧ (train_conv_net_cpu { } false).saves = [] :=
  ⟨rfl, rfl, rfl⟩

/-- Claim C7 (amended). Only `train_conv_net_gpu` persists: with device
count ≥ 1 it saves the current model to
`goes16_resnet_gpus_<NN>.h5` with the device count zero-padded to two
digits; with zero devices nothing is trained or saved.
`train_conv_net_cpu` never saves its model. -/
theorem claim7_amended (hp : Hyper) (n : ℕ) (hn : 1 ≤ n) :
    savedPaths (train_conv_net_gpu hp n false) = ["goes16_resnet_gpus_" ++ pad2 n ++ ".h5"]
    ∧ gpuSaveName 2 = "goes16_resnet_gpus_02.h5"
    ∧ gpuSaveName 16 = "goes16_resnet_gpus_16.h5"
    ∧ savedPaths (train_conv_net_gpu hp 0 false) = []
    ∧ (train_conv_net_gpu hp 0 false).fits = []
    ∧ savedPaths (train_conv_net_cpu hp false) = [] := by
  refine ⟨?_, rfl, rfl, ?_, ?_, ?_⟩
  · rcases Nat.lt_or_ge n 2 with h2 | h2
    · have h1 : n = 1 := by omega
      subst h1
      rw [savedPaths, gpu_run_one_ok hp]
      rfl
    · rw [savedPaths, gpu_run_many_ok hp n h2]
      rfl
  · rw [savedPaths, gpu_run_zero hp false]
    rfl
  · rw [gpu_run_zero hp false]
  · rw [savedPaths, cpu_run_ok hp]
    rfl

/-- Witness for `claim7_amended` at `n = 2` with default hyperparameters. -/
theorem claim7_witness :
    1 ≤ 2
    ∧ (savedPaths (train_conv_net_gpu { } 2 false)
          = ["goes16_resnet_gpus_" ++ pad2 2 ++ ".h5"]
      ∧ gpuSaveName 2 = "goes16_resnet_gpus_02.h5"
      ∧ gpuSaveName 16 = "goes16_resnet_gpus_16.h5"
      ∧ savedPaths (train_conv_net_gpu { } 0 false) = []
      ∧ (train_conv_net_gpu { } 0 false).fits = []
      ∧ savedPaths (train_conv_net_cpu { } false) = []) :=
  ⟨by decide, claim7_amended { } 2 (by decide)⟩

/-!
Helper lemmas for the scaler.
-/

lemma foldl_min_le_init (t : List ℚ) : ∀ acc : ℚ, t.foldl min acc ≤ acc := by
  induction t with
  | nil => intro acc; exact le_refl acc
  | cons h t ih =>
    intro acc
    exact le_trans (ih (min acc h)) (min_le_left acc h)

lemma foldl_min_le_of_mem (t : List ℚ) : ∀ (acc a : ℚ), a ∈ t → t.foldl min acc ≤ a := by
  induction t with
  | nil => intro acc a ha; simp at ha
  | cons h t ih =>
    intro acc a ha
    rcases List.mem_cons.mp ha with rfl | ha
    · exact le_trans (foldl_min_le_init t (min acc a)) (min_le_right acc a)
    · exact ih (min acc h) a ha

/-- `numpy.min` is a lower bound of the entries. -/
lemma npMin_le_of_mem (l : List ℚ) (a : ℚ) (h : a ∈ l) : npMin l ≤ a := by
  cases l with
  | nil => simp at h
  | cons hd t =>
    rcases List.mem_cons.mp h with rfl | h
    · exact foldl_min_le_init t a
    · exact foldl_min_le_of_mem t hd a h

lemma le_foldl_max_init (t : List ℚ) : ∀ acc : ℚ, acc ≤ t.foldl max acc := by
  induction t with
  | nil => intro acc; exact le_refl acc
  | cons h t ih =>
    intro acc
    exact le_trans (le_max_left acc h) (ih (max acc h))

lemma le_foldl_max_of_mem (t : List ℚ) : ∀ (acc a : ℚ), a ∈ t → a ≤ t.foldl max acc := by
  induction t with
  | nil => intro acc a ha; simp at ha
  | cons h t ih =>
    intro acc a ha
    rcases List.mem_cons.mp ha with rfl | ha
    · exact le_trans (le_max_right acc a) (le_foldl_max_init t (max acc a))
    · exact ih (max acc h) a ha

/-- `numpy.max` is an upper bound of the entries. -/
lemma le_npMax_of_mem (l : List ℚ) (a : ℚ) (h : a ∈ l) : a ≤ npMax l := by
  cases l with
  | nil => simp at h
  | cons hd t =>
    rcases List.mem_cons.mp h with rfl | h
    · exact le_foldl_max_init t a
    · exact le_foldl_max_of_mem t hd a h

/-- Every in-bounds entry of `x[:, v]` is among the fitted cells. -/
lemma mem_cellsOf (x : Arr4) (v i j k : ℕ) (hi : i < x.nEx) (hj : j < x.nY) (hk : k < x.nX) :
    x.val i v j k ∈ cellsOf x v := by
  unfold cellsOf
  refine List.mem_flatMap.mpr ⟨i, List.mem_range.mpr hi, ?_⟩
  refine List.mem_flatMap.mpr ⟨j, List.mem_range.mpr hj, ?_⟩
  exact List.mem_map.mpr ⟨k, List.mem_range.mpr hk, rfl⟩

/-- `transformElem` ignores the `scale_values` field of the scaler. -/
lemma transformElem_set_scale_values (sc : MinMaxScaler2D) (o : Option ScaleValues)
    (sv : ScaleValues) (dt : NpDtype) (v : ℕ) (q : ℚ) :
    transformElem { sc with scale_values := o } sv dt v q = transformElem sc sv dt v q := rfl

/-- `fit_transform` on the array it was fitted to never raises: the
variable counts agree by construction. -/
lemma fit_transform_eq (sc : MinMaxScaler2D) (x : Arr4) :
    MinMaxScaler2D.fit_transform sc x = Except.ok
      { dtype := x.dtype, nEx := x.nEx, nVar := x.nVar, nY := x.nY, nX := x.nX,
        val := fun i v j k =>
          if v < x.nVar then
            transformElem sc (MinMaxScaler2D.fitValues x) x.dtype v (x.val i v j k)
          else 0 } := by
  unfold MinMaxScaler2D.fit_transform MinMaxScaler2D.transform MinMaxScaler2D.fit
  simp [MinMaxScaler2D.fitValues, transformElem_set_scale_values]

/-- Demonstration array: float dtype, one variable, cell values 0, 1, 2. -/
def xFloatDemo : Arr4 := ⟨NpDtype.float, 1, 1, 1, 3, fun _ _ _ k => (k : ℚ)⟩

/-- Demonstration array: same values as `xFloatDemo` but integer dtype. -/
def xIntDemo : Arr4 := ⟨NpDtype.int, 1, 1, 1, 3, fun _ _ _ k => (k : ℚ)⟩

/-- A scaler constructed as `MinMaxScaler2D(out_min=0.5, out_max=2.5)`. -/
def scHalfDemo : MinMaxScaler2D := { out_min := 1/2, out_max := 5/2 }

/-- Claim C8, counterexample. The claim quantifies over every 4D array;
for an integer-dtyped array (values 0, 1, 2) and a scaler built as
`MinMaxScaler2D(out_min=0.5, out_max=2.5)`, the value 1 is first stored
as `int((1-0)/2) = 0` and then as `int(0 * 2 + 0.5) = 0`, which lies
below `out_min = 1/2`: the transform output does not stay within
`[out_min, out_max]`. -/
theorem claim8_counterexample :
    isError (MinMaxScaler2D.fit_transform scHalfDemo xIntDemo) = false
    ∧ xIntDemo.nEx = 1 ∧ xIntDemo.nVar = 1 ∧ xIntDemo.nY = 1 ∧ xIntDemo.nX = 3
    ∧ exceptVal (MinMaxScaler2D.fit_transform scHalfDemo xIntDemo) 0 0 0 1 = 0
    ∧ ¬ (scHalfDemo.out_min ≤
          exceptVal (MinMaxScaler2D.fit_transform scHalfDemo xIntDemo) 0 0 0 1) := by
  have hval : exceptVal (MinMaxScaler2D.fit_transform scHalfDemo xIntDemo) 0 0 0 1 = 0 := by
    norm_num [MinMaxScaler2D.fit_transform, MinMaxScaler2D.transform, MinMaxScaler2D.fit,
      MinMaxScaler2D.fitValues, transformElem, npStore, pytrunc, cellsOf, npMin, npMax,
      min_def, max_def, exceptVal, scHalfDemo, xIntDemo, List.range_succ]
  refine ⟨by rw [fit_transform_eq]; rfl, rfl, rfl, rfl, rfl, hval, ?_⟩
  rw [hval]
  norm_num [scHalfDemo]

/-- Claim C8 (amended). For every 4D array `x` of floating dtype and
every constructor-built scaler (`out_range = out_max - out_min`) with
`out_min ≤ out_max`: after `fit(x)`, every in-bounds value of
`transform(x)` for a variable with nonzero fitted range lies within
`[out_min, out_max]`; and with `out_min = 0`, `out_max = 1`,
`fit_transform(x)` maps any cell holding the variable's minimum to
exactly 0 and any cell holding its maximum to exactly 1. -/
theorem claim8_amended (sc : MinMaxScaler2D) (x : Arr4) (i v j k i2 j2 k2 i3 j3 k3 : ℕ)
    (hdt : x.dtype = NpDtype.float)
    (hi : i < x.nEx) (hv : v < x.nVar) (hj : j < x.nY) (hk : k < x.nX)
    (hr : (MinMaxScaler2D.fitValues x).rangev v ≠ 0)
    (hle : sc.out_min ≤ sc.out_max)
    (hor : sc.out_range = sc.out_max - sc.out_min)
    (hmin : x.val i2 v j2 k2 = (MinMaxScaler2D.fitValues x).minv v)
    (hmax : x.val i3 v j3 k3 = (MinMaxScaler2D.fitValues x).maxv v) :
    isError (MinMaxScaler2D.fit_transform sc x) = false
    ∧ sc.out_min ≤ exceptVal (MinMaxScaler2D.fit_transform sc x) i v j k
    ∧ exceptVal (MinMaxScaler2D.fit_transform sc x) i v j k ≤ sc.out_max
    ∧ exceptVal (MinMaxScaler2D.fit_transform ({ } : MinMaxScaler2D) x) i2 v j2 k2 = 0
    ∧ exceptVal (MinMaxScaler2D.fit_transform ({ } : MinMaxScaler2D) x) i3 v j3 k3 = 1 := by
  have hval : ∀ (sc' : MinMaxScaler2D) (i' j' k' : ℕ),
      exceptVal (MinMaxScaler2D.fit_transform sc' x) i' v j' k'
        = transformElem sc' (MinMaxScaler2D.fitValues x) x.dtype v (x.val i' v j' k') := by
    intro sc' i' j' k'
    rw [fit_transform_eq]
    simp [exceptVal, hv]
  have hmem : x.val i v j k ∈ cellsOf x v := mem_cellsOf x v i j k hi hj hk
  have hmq : (MinMaxScaler2D.fitValues x).minv v ≤ x.val i v j k :=
    npMin_le_of_mem (cellsOf x v) _ hmem
  have hqM : x.val i v j k ≤ (MinMaxScaler2D.fitValues x).maxv v :=
    le_npMax_of_mem (cellsOf x v) _ hmem
  have hrange_eq : (MinMaxScaler2D.fitValues x).rangev v
      = (MinMaxScaler2D.fitValues x).maxv v - (MinMaxScaler2D.fitValues x).minv v := rfl
  have hr0 : 0 ≤ (MinMaxScaler2D.fitValues x).rangev v := by
    rw [hrange_eq]
    exact sub_nonneg.mpr (le_trans hmq hqM)
  have hpos : 0 < (MinMaxScaler2D.fitValues x).rangev v := lt_of_le_of_ne hr0 (Ne.symm hr)
  have ht0 : 0 ≤ (x.val i v j k - (MinMaxScaler2D.fitValues x).minv v)
      / (MinMaxScaler2D.fitValues x).rangev v :=
    div_nonneg (sub_nonneg.mpr hmq) hr0
  have ht1 : (x.val i v j k - (MinMaxScaler2D.fitValues x).minv v)
      / (MinMaxScaler2D.fitValues x).rangev v ≤ 1 := by
    rw [div_le_one hpos, hrange_eq]
    exact sub_le_sub_right hqM _
  refine ⟨by rw [fit_transform_eq]; rfl, ?_, ?_, ?_, ?_⟩
  · rw [hval sc i j k]
    simp only [transformElem, npStore, hdt]
    by_cases hg : sc.out_min ≠ 0 ∨ sc.out_max ≠ 1
    · rw [if_pos hg, hor]
      have hnn : 0 ≤ (x.val i v j k - (MinMaxScaler2D.fitValues x).minv v)
          / (MinMaxScaler2D.fitValues x).rangev v * (sc.out_max - sc.out_min) :=
        mul_nonneg ht0 (sub_nonneg.mpr hle)
      linarith
    · rw [if_neg hg]
      push_neg at hg
      rw [hg.1]
      exact ht0
  · rw [hval sc i j k]
    simp only [transformElem, npStore, hdt]
    by_cases hg : sc.out_min ≠ 0 ∨ sc.out_max ≠ 1
    · rw [if_pos hg, hor]
      have hmul : (x.val i v j k - (MinMaxScaler2D.fitValues x).minv v)
          / (MinMaxScaler2D.fitValues x).rangev v * (sc.out_max - sc.out_min)
          ≤ sc.out_max - sc.out_min :=
        mul_le_of_le_one_left (sub_nonneg.mpr hle) ht1
      linarith
    · rw [if_neg hg]
      push_neg at hg
      rw [hg.2]
      exact ht1
  · rw [hval { } i2 j2 k2]
    simp [transformElem, npStore, hdt, hmin]
  · rw [hval { } i3 j3 k3]
    simp only [transformElem, npStore, hdt, hmax]
    rw [← hrange_eq, div_self hr]
    simp

/-- Witness for `claim8_amended`: the float demo array, the (0.5, 2.5)
scaler, the middle cell for the bound and the extreme cells for the 0/1
mapping. -/
theorem claim8_witness :
    (xFloatDemo.dtype = NpDtype.float
      ∧ 0 < xFloatDemo.nEx ∧ 0 < xFloatDemo.nVar ∧ 0 < xFloatDemo.nY ∧ 1 < xFloatDemo.nX
      ∧ (MinMaxScaler2D.fitValues xFloatDemo).rangev 0 ≠ 0
      ∧ scHalfDemo.out_min ≤ scHalfDemo.out_max
      ∧ scHalfDemo.out_range = scHalfDemo.out_max - scHalfDemo.out_min
      ∧ xFloatDemo.val 0 0 0 0 = (MinMaxScaler2D.fitValues xFloatDemo).minv 0
      ∧ xFloatDemo.val 0 0 0 2 = (MinMaxScaler2D.fitValues xFloatDemo).maxv 0)
    ∧ (isError (MinMaxScaler2D.fit_transform scHalfDemo xFloatDemo) = false
      ∧ scHalfDemo.out_min ≤ exceptVal (MinMaxScaler2D.fit_transform scHalfDemo xFloatDemo) 0 0 0 1
      ∧ exceptVal (MinMaxScaler2D.fit_transform scHalfDemo xFloatDemo) 0 0 0 1
          ≤ scHalfDemo.out_max
      ∧ exceptVal (MinMaxScaler2D.fit_transform ({ } : MinMaxScaler2D) xFloatDemo) 0 0 0 0 = 0
      ∧ exceptVal (MinMaxScaler2D.fit_transform ({ } : MinMaxScaler2D) xFloatDemo) 0 0 0 2 = 1) :=
  ⟨⟨rfl, by decide, by decide, by decide, by decide,
      by norm_num [MinMaxScaler2D.fitValues, cellsOf, xFloatDemo, List.range_succ,
        npMin, npMax, min_def, max_def],
      by norm_num [scHalfDemo], rfl,
      by norm_num [MinMaxScaler2D.fitValues, cellsOf, xFloatDemo, List.range_succ,
        npMin, npMax, min_def, max_def],
      by norm_num [MinMaxScaler2D.fitValues, cellsOf, xFloatDemo, List.range_succ,
        npMin, npMax, min_def, max_def]⟩,
    claim8_amended scHalfDemo xFloatDemo 0 0 0 1 0 0 0 0 0 2 rfl
      (by decide) (by decide) (by decide) (by decide)
      (by norm_num [MinMaxScaler2D.fitValues, cellsOf, xFloatDemo, List.range_succ,
        npMin, npMax, min_def, max_def])
      (by norm_num [scHalfDemo]) rfl
      (by norm_num [MinMaxScaler2D.fitValues, cellsOf, xFloatDemo, List.range_succ,
        npMin, npMax, min_def, max_def])
      (by norm_num [MinMaxScaler2D.fitValues, cellsOf, xFloatDemo, List.range_succ,
        npMin, npMax, min_def, max_def])⟩

/-- A two-variable array used as a shape-mismatch probe. -/
def xTwoVarDemo : Arr4 := ⟨NpDtype.float, 1, 2, 1, 1, fun _ _ _ _ => 0⟩

/-- Claim C9. For every fitted scaler (`scale_values = some sv`),
`transform(x)` raises the `ValueError` exactly when the size of `x`'s
variable axis differs from the fitted variable count, and on that error
no output array is produced (the scaler itself is a pure value in this
embedding, so the fitted parameters are untouched by `transform`). -/
theorem claim9_thm (sc : MinMaxScaler2D) (sv : ScaleValues) (x : Arr4)
    (h : sc.scale_values = some sv) :
    (isError (MinMaxScaler2D.transform sc x) = true ↔ x.nVar ≠ sv.nVars)
    ∧ (x.nVar ≠ sv.nVars → MinMaxScaler2D.transform sc x
        = Except.error "Input x does not have the correct number of variables")
    ∧ (x.nVar ≠ sv.nVars → exceptShape (MinMaxScaler2D.transform sc x) = none) := by
  unfold MinMaxScaler2D.transform
  rw [h]
  by_cases hv : x.nVar ≠ sv.nVars
  · simp [hv, isError, exceptShape]
  · simp [hv, isError, exceptShape]

/-- Witness for `claim9_thm`: a scaler fitted on the one-variable demo
array, probed with the two-variable demo array. -/
theorem claim9_witness :
    (MinMaxScaler2D.fit ({ } : MinMaxScaler2D) xFloatDemo).scale_values
        = some (MinMaxScaler2D.fitValues xFloatDemo)
    ∧ ((isError (MinMaxScaler2D.transform (MinMaxScaler2D.fit ({ } : MinMaxScaler2D) xFloatDemo)
            xTwoVarDemo) = true
        ↔ xTwoVarDemo.nVar ≠ (MinMaxScaler2D.fitValues xFloatDemo).nVars)
      ∧ (xTwoVarDemo.nVar ≠ (MinMaxScaler2D.fitValues xFloatDemo).nVars →
          MinMaxScaler2D.transform (MinMaxScaler2D.fit ({ } : MinMaxScaler2D) xFloatDemo)
              xTwoVarDemo
            = Except.error "Input x does not have the correct number of variables")
      ∧ (xTwoVarDemo.nVar ≠ (MinMaxScaler2D.fitValues xFloatDemo).nVars →
          exceptShape (MinMaxScaler2D.transform
            (MinMaxScaler2D.fit ({ } : MinMaxScaler2D) xFloatDemo) xTwoVarDemo) = none)) :=
  ⟨rfl, claim9_thm (MinMaxScaler2D.fit ({ } : MinMaxScaler2D) xFloatDemo)
    (MinMaxScaler2D.fitValues xFloatDemo) xTwoVarDemo rfl⟩

/-- Claim C10. A successful `transform` returns an array with the same
shape and element dtype as its input (`np.zeros(x.shape, dtype=x.dtype)`
is the output buffer); in particular, for an integer-dtyped input every
output element is an integer (the fractional scaled values are truncated
on storage), whereas the same values with float dtype keep their
fractional part: value 1 of the 0..2 demo array maps to 0 as int and to
1/2 as float. -/
theorem claim10_thm (sc : MinMaxScaler2D) (sv : ScaleValues) (x : Arr4) (i v j k : ℕ)
    (h : sc.scale_values = some sv) (hnv : x.nVar = sv.nVars) (hv : v < x.nVar) :
    isError (MinMaxScaler2D.transform sc x) = false
    ∧ exceptDtype (MinMaxScaler2D.transform sc x) = some x.dtype
    ∧ exceptShape (MinMaxScaler2D.transform sc x) = some (x.nEx, x.nVar, x.nY, x.nX)
    ∧ (x.dtype = NpDtype.int → (exceptVal (MinMaxScaler2D.transform sc x) i v j k).den = 1)
    ∧ exceptVal (MinMaxScaler2D.fit_transform ({ } : MinMaxScaler2D) xIntDemo) 0 0 0 1 = 0
    ∧ exceptVal (MinMaxScaler2D.fit_transform ({ } : MinMaxScaler2D) xFloatDemo) 0 0 0 1
        = 1/2 := by
  have hok : MinMaxScaler2D.transform sc x = Except.ok
      { dtype := x.dtype, nEx := x.nEx, nVar := x.nVar, nY := x.nY, nX := x.nX,
        val := fun i' v' j' k' =>
          if v' < sv.nVars then transformElem sc sv x.dtype v' (x.val i' v' j' k') else 0 } := by
    unfold MinMaxScaler2D.transform
    rw [h]
    simp [hnv]
  refine ⟨by rw [hok]; rfl, by rw [hok]; rfl, by rw [hok]; rfl, ?_, ?_, ?_⟩
  · intro hint
    rw [hok]
    simp only [exceptVal]
    rw [if_pos (hnv ▸ hv)]
    unfold transformElem npStore
    rw [hint]
    by_cases hg : sc.out_min ≠ 0 ∨ sc.out_max ≠ 1
    · rw [if_pos hg]
      exact Rat.den_intCast _
    · rw [if_neg hg]
      exact Rat.den_intCast _
  · norm_num [MinMaxScaler2D.fit_transform, MinMaxScaler2D.transform, MinMaxScaler2D.fit,
      MinMaxScaler2D.fitValues, transformElem, npStore, pytrunc, cellsOf, npMin, npMax,
      min_def, max_def, exceptVal, xIntDemo, List.range_succ]
  · norm_num [MinMaxScaler2D.fit_transform, MinMaxScaler2D.transform, MinMaxScaler2D.fit,
      MinMaxScaler2D.fitValues, transformElem, npStore, pytrunc, cellsOf, npMin, npMax,
      min_def, max_def, exceptVal, xFloatDemo, List.range_succ]

/-- Witness for `claim10_thm`: the fitted demo scaler applied to the
integer demo array at the middle cell. -/
theorem claim10_witness :
    ((MinMaxScaler2D.fit ({ } : MinMaxScaler2D) xIntDemo).scale_values
        = some (MinMaxScaler2D.fitValues xIntDemo)
      ∧ xIntDemo.nVar = (MinMaxScaler2D.fitValues xIntDemo).nVars
      ∧ 0 < xIntDemo.nVar)
    ∧ (isError (MinMaxScaler2D.transform
          (MinMaxScaler2D.fit ({ } : MinMaxScaler2D) xIntDemo) xIntDemo) = false
      ∧ exceptDtype (MinMaxScaler2D.transform
          (MinMaxScaler2D.fit ({ } : MinMaxScaler2D) xIntDemo) xIntDemo) = some xIntDemo.dtype
      ∧ exceptShape (MinMaxScaler2D.transform
          (MinMaxScaler2D.fit ({ } : MinMaxScaler2D) xIntDemo) xIntDemo)
          = some (xIntDemo.nEx, xIntDemo.nVar, xIntDemo.nY, xIntDemo.nX)
      ∧ (xIntDemo.dtype = NpDtype.int →
          (exceptVal (MinMaxScaler2D.transform
            (MinMaxScaler2D.fit ({ } : MinMaxScaler2D) xIntDemo) xIntDemo) 0 0 0 1).den = 1)
      ∧ exceptVal (MinMaxScaler2D.fit_transform ({ } : MinMaxScaler2D) xIntDemo) 0 0 0 1 = 0
      ∧ exceptVal (MinMaxScaler2D.fit_transform ({ } : MinMaxScaler2D) xFloatDemo) 0 0 0 1
          = 1/2) :=
  ⟨⟨rfl, rfl, by decide⟩,
    claim10_thm (MinMaxScaler2D.fit ({ } : MinMaxScaler2D) xIntDemo)
      (MinMaxScaler2D.fitValues xIntDemo) xIntDemo 0 0 0 1 rfl rfl (by decide)⟩
